import Mathlib

/-!
Verification of the glucose-monitoring core of `lab.py` (Virtual-Glucometer).

The development shallowly embeds the domain/data layer of the program:

* `GlucoseAnalyzer.analyze` — the pure classification rule engine;
* `DatabaseManager` — the SQLite-backed store for patients, readings and goals,
  modelled as explicit state passing over a `DB` record.  SQLite specifics that
  matter are modelled faithfully: the `UNIQUE` constraint on `patients.name`
  raises `IntegrityError` (caught, returning `None`), whereas the declared
  `FOREIGN KEY` clauses are *not* enforced because the program never issues
  `PRAGMA foreign_keys = ON` (SQLite leaves foreign-key enforcement off by
  default), and `TEXT` comparison uses the default `BINARY` collation, i.e.
  byte-wise (equivalently code-point-wise) lexicographic order;
* `StatisticsCalculator.calculate_statistics` — aggregate statistics.

Numeric values are modelled as exact rationals (`ℚ`); the sample standard
deviation, the only irrational quantity, lives in `ℝ`.  Wall-clock timestamps
are ambient inputs of the program, so they appear as explicit parameters.
-/

namespace Glucometer

/-- Classification thresholds of `GlucoseAnalyzer` (mg/dL): severe hypoglycemia. -/
def CRITICAL_LOW : ℚ := 54

/-- `GlucoseAnalyzer.WARNING_LOW`: hypoglycemia threshold. -/
def WARNING_LOW : ℚ := 70

/-- `GlucoseAnalyzer.NORMAL_HIGH`: upper limit for postprandial glucose. -/
def NORMAL_HIGH : ℚ := 140

/-- `GlucoseAnalyzer.WARNING_HIGH`: hyperglycemia threshold. -/
def WARNING_HIGH : ℚ := 180

/-- The result dictionary of `GlucoseAnalyzer.analyze`.  The `timestamp` entry of
the Python dictionary is the wall clock at call time and is omitted here (the
claims only concern the value-determined entries). -/
structure Classification where
  value : ℚ
  status : String
  color : String
  severity : String
  message : String
  alarm : Bool
deriving DecidableEq

/-- `GlucoseAnalyzer.analyze`: top-down threshold chain, first match wins. -/
def analyze (glucose_value : ℚ) : Classification :=
  if glucose_value < CRITICAL_LOW then
    { value := glucose_value, status := "CRITICAL LOW", color := "#FF4444",
      severity := "critical",
      message := "⚠️ CRITICAL: Severe Hypoglycemia! Immediate action required!",
      alarm := true }
  else if glucose_value < WARNING_LOW then
    { value := glucose_value, status := "WARNING LOW", color := "#FFA500",
      severity := "warning",
      message := "⚠️ WARNING: Low glucose level detected.",
      alarm := true }
  else if glucose_value ≤ NORMAL_HIGH then
    { value := glucose_value, status := "NORMAL", color := "#4CAF50",
      severity := "normal",
      message := "✓ Glucose level is within normal range.",
      alarm := false }
  else if glucose_value ≤ WARNING_HIGH then
    { value := glucose_value, status := "WARNING HIGH", color := "#FFA500",
      severity := "warning",
      message := "⚠️ WARNING: Elevated glucose level detected.",
      alarm := true }
  else
    { value := glucose_value, status := "CRITICAL HIGH", color := "#FF4444",
      severity := "critical",
      message := "⚠️ CRITICAL: Severe Hyperglycemia! Immediate action required!",
      alarm := true }

/-- A row of the `patients` table (`id INTEGER PRIMARY KEY AUTOINCREMENT`,
`name TEXT UNIQUE`, `age`, `diabetes_type`, `target_min DEFAULT 70`,
`target_max DEFAULT 140`, `created_date`). -/
structure Patient where
  id : ℕ
  name : String
  age : ℤ
  diabetes_type : String
  target_min : ℚ
  target_max : ℚ
  created_date : String
deriving DecidableEq

/-- A row of the `readings` table (`id`, `patient_id`, `glucose_value`,
`status`, `condition`, `timestamp TEXT`). -/
structure Reading where
  id : ℕ
  patient_id : ℕ
  glucose_value : ℚ
  status : String
  condition : String
  timestamp : String
deriving DecidableEq

/-- A row of the `goals` table (`id`, `patient_id`, `goal_type`, `target_value`,
`current_value`, `start_date`, `end_date`, `achieved INTEGER DEFAULT 0`).
The `achieved` column stores 0/1 and is modelled as `Bool`. -/
structure Goal where
  id : ℕ
  patient_id : ℕ
  goal_type : String
  target_value : ℚ
  current_value : ℚ
  start_date : String
  end_date : String
  achieved : Bool
deriving DecidableEq

/-- The state of the SQLite database managed by `DatabaseManager`: the three
tables in insertion order together with the next `AUTOINCREMENT` rowid of
each. -/
structure DB where
  patients : List Patient
  readings : List Reading
  goals : List Goal
  next_patient_id : ℕ
  next_reading_id : ℕ
  next_goal_id : ℕ
deriving DecidableEq

/-- `DatabaseManager.init_database` on a fresh file: three empty tables,
autoincrement counters starting at 1. -/
def emptyDB : DB :=
  { patients := [], readings := [], goals := [],
    next_patient_id := 1, next_reading_id := 1, next_goal_id := 1 }

/-- `DatabaseManager.add_patient(name, age, diabetes_type)`: the `INSERT`
violates the `UNIQUE` constraint on `name` when a patient with that name
already exists; the raised `sqlite3.IntegrityError` is caught and `None` is
returned with the database unchanged.  Otherwise the row is inserted and
`cursor.lastrowid` is returned.  The `created_date` argument stands for
`datetime.now().strftime("%Y-%m-%d %H:%M:%S")`, an ambient input. -/
def add_patient (db : DB) (name : String) (age : ℤ) (diabetes_type : String)
    (created_date : String) : Option ℕ × DB :=
  if db.patients.any (fun p => decide (p.name = name)) then
    (none, db)
  else
    (some db.next_patient_id,
     { db with
        patients := db.patients ++
          [{ id := db.next_patient_id, name := name, age := age,
             diabetes_type := diabetes_type, target_min := 70, target_max := 140,
             created_date := created_date }],
        next_patient_id := db.next_patient_id + 1 })

/-- `DatabaseManager.get_patients()`. -/
def get_patients (db : DB) : List Patient :=
  db.patients

/-- `DatabaseManager.get_patient_by_name(name)`. -/
def get_patient_by_name (db : DB) (name : String) : Option Patient :=
  db.patients.find? (fun p => decide (p.name = name))

/-- `DatabaseManager.add_reading(patient_id, glucose_value, status, condition,
timestamp)`: a plain `INSERT` into `readings`.  Although the schema declares
`FOREIGN KEY (patient_id) REFERENCES patients(id)`, the program never executes
`PRAGMA foreign_keys = ON`, and SQLite keeps foreign-key enforcement off by
default, so the insert succeeds for any `patient_id` whatsoever. -/
def add_reading (db : DB) (patient_id : ℕ) (glucose_value : ℚ) (status : String)
    (condition : String) (timestamp : String) : DB :=
  { db with
      readings := db.readings ++
        [{ id := db.next_reading_id, patient_id := patient_id,
           glucose_value := glucose_value, status := status,
           condition := condition, timestamp := timestamp }],
      next_reading_id := db.next_reading_id + 1 }

/-- The `ORDER BY timestamp DESC` comparison: SQLite compares `TEXT` values
with the default `BINARY` collation, which on UTF-8 strings coincides with
code-point-wise lexicographic order, i.e. Lean's `String` order. -/
def tsDesc (a b : Reading) : Bool :=
  decide (b.timestamp ≤ a.timestamp)

/-- `DatabaseManager.get_readings(patient_id, days=None)`.  When `days` is
truthy (not `None` and not `0`), rows are filtered by the string comparison
`timestamp >= cutoff` where the cutoff is
`(datetime.now() - timedelta(days=days)).strftime("%Y-%m-%d")` — a date with
no time-of-day component.  The wall clock is an ambient input, so the
formatted cutoff is abstracted as the parameter `cutoffOf`, mapping the day
count to the cutoff string.  Note Python's `if days:` treats `days=0` like
`days=None`. -/
def get_readings (db : DB) (patient_id : ℕ) (days : Option ℕ)
    (cutoffOf : ℕ → String) : List Reading :=
  let rows := db.readings.filter (fun r => decide (r.patient_id = patient_id))
  match days with
  | some d =>
      if d ≠ 0 then
        (rows.filter (fun r => decide (cutoffOf d ≤ r.timestamp))).mergeSort tsDesc
      else
        rows.mergeSort tsDesc
  | none => rows.mergeSort tsDesc

/-- `DatabaseManager.add_goal(patient_id, goal_type, target_value, start_date,
end_date)`: inserts with `current_value = 0`; the `achieved` column is not in
the column list, so SQLite fills its declared `DEFAULT 0`.  As with
`add_reading`, the declared foreign key is not enforced. -/
def add_goal (db : DB) (patient_id : ℕ) (goal_type : String) (target_value : ℚ)
    (start_date : String) (end_date : String) : DB :=
  { db with
      goals := db.goals ++
        [{ id := db.next_goal_id, patient_id := patient_id,
           goal_type := goal_type, target_value := target_value,
           current_value := 0, start_date := start_date, end_date := end_date,
           achieved := false }],
      next_goal_id := db.next_goal_id + 1 }

/-- `DatabaseManager.get_goals(patient_id)`. -/
def get_goals (db : DB) (patient_id : ℕ) : List Goal :=
  db.goals.filter (fun g => decide (g.patient_id = patient_id))

/-- `DatabaseManager.update_goal_progress(goal_id, current_value, achieved=0)`:
an unconditional `UPDATE ... WHERE id = goal_id` overwriting both columns. -/
def update_goal_progress (db : DB) (goal_id : ℕ) (current_value : ℚ)
    (achieved : Bool := false) : DB :=
  { db with
      goals := db.goals.map (fun g =>
        if g.id = goal_id then
          { g with current_value := current_value, achieved := achieved }
        else g) }

/-- `statistics.mean(values)`: Python computes the exact mean of the inputs
as a fraction, here the exact rational mean. -/
def mean (values : List ℚ) : ℚ :=
  values.sum / values.length

/-- The ascending sort used by `statistics.median`. -/
def sortedValues (values : List ℚ) : List ℚ :=
  values.mergeSort (fun a b => decide (a ≤ b))

/-- `statistics.median(values)`: the middle element of the sorted data for odd
length, the average of the two middle elements for even length. -/
def median (values : List ℚ) : ℚ :=
  let s := sortedValues values
  let n := values.length
  if n % 2 = 1 then s.getD (n / 2) 0
  else (s.getD (n / 2 - 1) 0 + s.getD (n / 2) 0) / 2

/-- The sample variance used by `statistics.stdev`: squared deviations from the
mean, divided by `n - 1`.  (Python raises on `n ≤ 1`; the caller guards with
`len(values) > 1`, and rational division by zero is the junk value 0.) -/
def sampleVariance (values : List ℚ) : ℚ :=
  (values.map (fun x => (x - mean values) ^ 2)).sum / ((values.length : ℚ) - 1)

/-- `statistics.stdev(values)`: the square root of the sample variance. -/
noncomputable def stdev (values : List ℚ) : ℝ :=
  Real.sqrt (sampleVariance values)

/-- Python `min(values)` (the guard ensures `values` is non-empty; the default
0 is never reached under that guard). -/
def listMin (values : List ℚ) : ℚ :=
  values.min?.getD 0

/-- Python `max(values)`. -/
def listMax (values : List ℚ) : ℚ :=
  values.max?.getD 0

/-- Rounding of a rational to the nearest integer with ties going to the even
integer — the rounding mode of Python's built-in `round`. -/
def roundHalfEvenInt (x : ℚ) : ℤ :=
  let f : ℤ := ⌊x⌋
  if x - f < 1 / 2 then f
  else if (1 : ℚ) / 2 < x - f then f + 1
  else if f % 2 = 0 then f else f + 1

/-- Python `round(x, 1)`: the multiple of 1/10 nearest to `x`, ties to even. -/
def pyRound1 (x : ℚ) : ℚ :=
  (roundHalfEvenInt (10 * x) : ℚ) / 10

/-- Modelled from the spec's words for §4.3 `estimated_a1c` only, for
comparison with the source's rounding: "round-half-to-nearest (ties away from
the lower value)" to 1 decimal place, i.e. ties round up. -/
def specRoundTiesUp1 (x : ℚ) : ℚ :=
  (⌊10 * x + 1 / 2⌋ : ℚ) / 10

/-- The dictionary returned by `StatisticsCalculator.calculate_statistics` on a
non-empty input. -/
structure Stats where
  count : ℕ
  average : ℚ
  median : ℚ
  std_dev : ℝ
  min : ℚ
  max : ℚ
  range : ℚ
  time_in_range : ℚ
  estimated_a1c : ℚ
  critical_low : ℕ
  warning_low : ℕ
  normal : ℕ
  warning_high : ℕ
  critical_high : ℕ

/-- `StatisticsCalculator.calculate_statistics(readings)`: `None` on an empty
input (`if not readings`), otherwise the aggregate over
`values = [r[2] for r in readings]` (index 2 is `glucose_value`). -/
noncomputable def calculate_statistics (readings : List Reading) : Option Stats :=
  if readings.isEmpty then none
  else
    let values := readings.map (fun r => r.glucose_value)
    let normal_count := values.countP (fun v => decide (70 ≤ v ∧ v ≤ 140))
    some
      { count := values.length
        average := mean values
        median := median values
        std_dev := if 1 < values.length then stdev values else 0
        min := listMin values
        max := listMax values
        range := listMax values - listMin values
        time_in_range := ((normal_count : ℚ) / (values.length : ℚ)) * 100
        estimated_a1c := pyRound1 ((mean values + 46.7) / 28.7)
        critical_low := values.countP (fun v => decide (v < 54))
        warning_low := values.countP (fun v => decide (54 ≤ v ∧ v < 70))
        normal := normal_count
        warning_high := values.countP (fun v => decide (140 < v ∧ v ≤ 180))
        critical_high := values.countP (fun v => decide (180 < v)) }

/-- A helper building a reading row, for concrete test inputs. -/
def mkReading (id patient_id : ℕ) (glucose_value : ℚ) (status condition timestamp : String) :
    Reading :=
  { id := id, patient_id := patient_id, glucose_value := glucose_value,
    status := status, condition := condition, timestamp := timestamp }

/-- The spec's worked statistics example: readings valued
`[100, 120, 140, 160, 180]`. -/
def exampleReadings : List Reading :=
  [mkReading 1 1 100 "NORMAL" "Normal" "2026-10-01 08:00:00",
   mkReading 2 1 120 "NORMAL" "Normal" "2026-10-02 08:00:00",
   mkReading 3 1 140 "NORMAL" "Normal" "2026-10-03 08:00:00",
   mkReading 4 1 160 "WARNING HIGH" "Normal" "2026-10-04 08:00:00",
   mkReading 5 1 180 "WARNING HIGH" "Normal" "2026-10-05 08:00:00"]

/-- A single reading whose value 143/8 = 17.875 makes
`(mean + 46.7) / 28.7` land exactly on the rounding tie 2.25. -/
def tieReading : List Reading :=
  [mkReading 1 1 (143 / 8) "CRITICAL LOW" "Normal" "2026-10-01 08:00:00"]

/-- A store already holding a patient named Alice, as in the spec's duplicate
example. -/
def aliceDB : DB :=
  (add_patient emptyDB "Alice" 30 "Type 1" "2026-01-01 00:00:00").2

/-- A store with one goal (id 1) for patient 1, for the progress-update
example. -/
def goalDB : DB :=
  add_goal emptyDB 1 "time_in_range" 80 "2026-01-01" "2026-03-31"

/-- Two readings of patient 1, one predating and one postdating the cutoff
used in the window example. -/
def windowDB : DB :=
  add_reading
    (add_reading emptyDB 1 95 "NORMAL" "Normal" "2026-08-01 10:00:00")
    1 125 "NORMAL" "Normal" "2026-10-10 09:30:00"

/-- The cutoff string `"now − d days"` truncated to a date, for a run of the
window example on 2026-10-12. -/
def windowCutoff : ℕ → String :=
  fun _ => "2026-09-12"

end Glucometer

namespace Glucometer

/-- Claim C1: for every numeric value `v`, `analyze` realises the threshold
table evaluated top-down with first match winning: `v < 54` is CRITICAL
LOW/critical/alarm, `54 ≤ v < 70` is WARNING LOW/warning/alarm,
`70 ≤ v ≤ 140` is NORMAL/normal/no alarm, `140 < v ≤ 180` is WARNING
HIGH/warning/alarm and `v > 180` is CRITICAL HIGH/critical/alarm, with no
precondition restricting `v` to `[0, 1000]`. -/
theorem analyze_threshold_table (v : ℚ) :
    (v < 54 →
      (analyze v).status = "CRITICAL LOW" ∧ (analyze v).severity = "critical" ∧
        (analyze v).alarm = true) ∧
    (54 ≤ v → v < 70 →
      (analyze v).status = "WARNING LOW" ∧ (analyze v).severity = "warning" ∧
        (analyze v).alarm = true) ∧
    (70 ≤ v → v ≤ 140 →
      (analyze v).status = "NORMAL" ∧ (analyze v).severity = "normal" ∧
        (analyze v).alarm = false) ∧
    (140 < v → v ≤ 180 →
      (analyze v).status = "WARNING HIGH" ∧ (analyze v).severity = "warning" ∧
        (analyze v).alarm = true) ∧
    (180 < v →
      (analyze v).status = "CRITICAL HIGH" ∧ (analyze v).severity = "critical" ∧
        (analyze v).alarm = true) := by
  unfold analyze CRITICAL_LOW WARNING_LOW NORMAL_HIGH WARNING_HIGH
  refine ⟨fun h1 => ?_, fun h1 h2 => ?_, fun h1 h2 => ?_, fun h1 h2 => ?_, fun h1 => ?_⟩
  · rw [if_pos h1]; exact ⟨rfl, rfl, rfl⟩
  · rw [if_neg (by linarith), if_pos h2]; exact ⟨rfl, rfl, rfl⟩
  · rw [if_neg (by linarith), if_neg (by linarith), if_pos h2]; exact ⟨rfl, rfl, rfl⟩
  · rw [if_neg (by linarith), if_neg (by linarith), if_neg (by linarith), if_pos h2]
    exact ⟨rfl, rfl, rfl⟩
  · rw [if_neg (by linarith), if_neg (by linarith), if_neg (by linarith),
      if_neg (by linarith)]
    exact ⟨rfl, rfl, rfl⟩

/-- Concrete instances of the classification table: a severely low, a normal and
a severely high value, including one outside `[0, 1000]`. -/
theorem analyze_threshold_table_witness :
    ((analyze 40).status = "CRITICAL LOW" ∧ (analyze 40).severity = "critical" ∧
      (analyze 40).alarm = true) ∧
    ((analyze 100).status = "NORMAL" ∧ (analyze 100).severity = "normal" ∧
      (analyze 100).alarm = false) ∧
    ((analyze 1200).status = "CRITICAL HIGH" ∧ (analyze 1200).severity = "critical" ∧
      (analyze 1200).alarm = true) :=
  ⟨(analyze_threshold_table 40).1 (by norm_num),
   (analyze_threshold_table 100).2.2.1 (by norm_num) (by norm_num),
   (analyze_threshold_table 1200).2.2.2.2 (by norm_num)⟩

end Glucometer

namespace Glucometer

/-- Claim C7: `calculate_statistics` applied to an empty collection of readings
returns the explicit absent result `None`, not a zero-filled aggregate. -/
theorem calculate_statistics_empty_none :
    calculate_statistics ([] : List Reading) = none :=
  rfl

/-- Claim C3 (code bug): on a freshly initialised store with no patients at
all, `add_reading` for the nonexistent patient 42 succeeds and stores the row,
because the declared `FOREIGN KEY` is never enforced (SQLite keeps foreign-key
enforcement off unless `PRAGMA foreign_keys = ON` is issued, which the program
never does); the spec instead promises a `ReferentialIntegrityError` and that
nothing is stored. -/
theorem add_reading_ignores_referential_integrity :
    emptyDB.patients = [] ∧
    (add_reading emptyDB 42 100 "NORMAL" "Normal" "2026-01-01 00:00:00").readings =
      [mkReading 1 42 100 "NORMAL" "Normal" "2026-01-01 00:00:00"] :=
  ⟨rfl, rfl⟩

/-- Claim C10: `get_readings` with `days = 0` applies no window filter at all —
Python's `if days:` treats 0 as falsy — so the call returns exactly the same
list as the call with no window argument. -/
theorem get_readings_zero_days_no_filter (db : DB) (patient_id : ℕ)
    (cutoffOf : ℕ → String) :
    get_readings db patient_id (some 0) cutoffOf =
      get_readings db patient_id none cutoffOf := by
  simp [get_readings]

/-- Claim C4: inserting a patient whose name already exists fails with the
explicit failure signal `none` (the caught `IntegrityError`, not a
session-aborting exception) and leaves the store completely unchanged; a fresh
name succeeds, returns the new patient's id, and only appends to the patients
table. -/
theorem add_patient_duplicate_name (db : DB) (name : String) (age : ℤ)
    (diabetes_type created_date : String) :
    ((∃ p ∈ db.patients, p.name = name) →
      add_patient db name age diabetes_type created_date = (none, db)) ∧
    ((∀ p ∈ db.patients, p.name ≠ name) →
      (add_patient db name age diabetes_type created_date).1 =
          some db.next_patient_id ∧
        ∃ newPatient,
          (add_patient db name age diabetes_type created_date).2.patients =
              db.patients ++ [newPatient] ∧
            newPatient.id = db.next_patient_id ∧ newPatient.name = name ∧
            (add_patient db name age diabetes_type created_date).2.readings =
              db.readings ∧
            (add_patient db name age diabetes_type created_date).2.goals =
              db.goals) := by
  constructor
  · rintro ⟨p, hp, hname⟩
    have hany : db.patients.any (fun p => decide (p.name = name)) = true := by
      rw [List.any_eq_true]
      exact ⟨p, hp, by simpa using hname⟩
    simp [add_patient, hany]
  · intro h
    have hany : db.patients.any (fun p => decide (p.name = name)) = false := by
      rw [List.any_eq_false]
      intro p hp
      simpa using h p hp
    have heq : add_patient db name age diabetes_type created_date =
        (some db.next_patient_id,
         { db with
            patients := db.patients ++
              [{ id := db.next_patient_id, name := name, age := age,
                 diabetes_type := diabetes_type, target_min := 70,
                 target_max := 140, created_date := created_date }],
            next_patient_id := db.next_patient_id + 1 }) := by
      simp [add_patient, hany]
    exact ⟨by rw [heq],
      ⟨{ id := db.next_patient_id, name := name, age := age,
         diabetes_type := diabetes_type, target_min := 70, target_max := 140,
         created_date := created_date },
       by rw [heq], rfl, rfl, by rw [heq], by rw [heq]⟩⟩

/-- The spec's duplicate-name scenario: after adding Alice, adding Alice again
fails with the explicit signal and the store is unchanged. -/
theorem add_patient_duplicate_name_witness :
    add_patient aliceDB "Alice" 40 "Type 2" "2026-01-02 00:00:00" =
      (none, aliceDB) :=
  (add_patient_duplicate_name aliceDB "Alice" 40 "Type 2" "2026-01-02 00:00:00").1
    ⟨{ id := 1, name := "Alice", age := 30, diabetes_type := "Type 1",
       target_min := 70, target_max := 140,
       created_date := "2026-01-01 00:00:00" },
     by decide, rfl⟩

/-- Claim C9: a goal created by `add_goal` starts with `current_value = 0` and
`achieved = false`, and after `update_goal_progress goal_id v a` every goal
retrieved via `get_goals` that bears that id has `current_value = v` and
`achieved = a` exactly as passed — both fields overwritten unconditionally,
independent of `target_value`. -/
theorem goal_init_and_update (db : DB) (patient_id : ℕ) (goal_type : String)
    (target_value : ℚ) (start_date end_date : String) (goal_id : ℕ) (v : ℚ)
    (a : Bool) :
    (∃ g, (add_goal db patient_id goal_type target_value start_date end_date).goals =
        db.goals ++ [g] ∧ g.current_value = 0 ∧ g.achieved = false) ∧
    (∀ pid2 g, g ∈ get_goals (update_goal_progress db goal_id v a) pid2 →
      g.id = goal_id → g.current_value = v ∧ g.achieved = a) := by
  constructor
  · exact ⟨_, rfl, rfl, rfl⟩
  · intro pid2 g hg hid
    have hmem : g ∈ (update_goal_progress db goal_id v a).goals :=
      (List.mem_filter.mp hg).1
    simp only [update_goal_progress, List.mem_map] at hmem
    obtain ⟨g0, -, hg0⟩ := hmem
    by_cases hcase : g0.id = goal_id
    · rw [if_pos hcase] at hg0
      subst hg0
      exact ⟨rfl, rfl⟩
    · rw [if_neg hcase] at hg0
      subst hg0
      exact absurd hid hcase

/-- The spec's progress example: `update_goal_progress(goalId, 85,
achieved=true)` followed by `get_goals` yields the goal with
`current_value = 85` and `achieved = true`, its target value 80
notwithstanding. -/
theorem goal_init_and_update_witness :
    ({ id := 1, patient_id := 1, goal_type := "time_in_range",
       target_value := 80, current_value := 85, start_date := "2026-01-01",
       end_date := "2026-03-31", achieved := true } : Goal).current_value = 85 ∧
    ({ id := 1, patient_id := 1, goal_type := "time_in_range",
       target_value := 80, current_value := 85, start_date := "2026-01-01",
       end_date := "2026-03-31", achieved := true } : Goal).achieved = true :=
  (goal_init_and_update goalDB 1 "time_in_range" 80 "2026-01-01" "2026-03-31"
      1 85 true).2 1
    { id := 1, patient_id := 1, goal_type := "time_in_range",
      target_value := 80, current_value := 85, start_date := "2026-01-01",
      end_date := "2026-03-31", achieved := true }
    (by decide) rfl

end Glucometer

namespace Glucometer

/-- Claim C5: for a positive window `d`, `get_readings` returns exactly the
patient's readings whose timestamp string is lexicographically ≥ the formatted
date-only cutoff for `d` (as a permutation of that filtered set), and the
returned list is ordered by timestamp descending. -/
theorem get_readings_window_filter_sorted (db : DB) (patient_id : ℕ) (d : ℕ)
    (cutoffOf : ℕ → String) (hd : 0 < d) :
    (get_readings db patient_id (some d) cutoffOf).Perm
      (db.readings.filter (fun r =>
        decide (r.patient_id = patient_id) && decide (cutoffOf d ≤ r.timestamp))) ∧
    List.Pairwise (fun a b : Reading => b.timestamp ≤ a.timestamp)
      (get_readings db patient_id (some d) cutoffOf) := by
  have hne : d ≠ 0 := hd.ne'
  have hget : get_readings db patient_id (some d) cutoffOf =
      ((db.readings.filter (fun r => decide (r.patient_id = patient_id))).filter
        (fun r => decide (cutoffOf d ≤ r.timestamp))).mergeSort tsDesc := by
    simp [get_readings, hne]
  constructor
  · rw [hget, List.filter_filter]
    refine (List.mergeSort_perm _ _).trans ?_
    have hpred : (fun r : Reading =>
        decide (cutoffOf d ≤ r.timestamp) && decide (r.patient_id = patient_id)) =
        (fun r : Reading =>
          decide (r.patient_id = patient_id) && decide (cutoffOf d ≤ r.timestamp)) := by
      funext r
      exact Bool.and_comm _ _
    rw [hpred]
  · rw [hget]
    have htrans : ∀ a b c : Reading, tsDesc a b → tsDesc b c → tsDesc a c := by
      intro a b c h1 h2
      exact decide_eq_true (le_trans (of_decide_eq_true h2) (of_decide_eq_true h1))
    have htotal : ∀ a b : Reading, tsDesc a b || tsDesc b a := by
      intro a b
      rcases le_total a.timestamp b.timestamp with h | h
      · simp [tsDesc, h]
      · simp [tsDesc, h]
    have hs := List.sorted_mergeSort htrans htotal
      ((db.readings.filter (fun r => decide (r.patient_id = patient_id))).filter
        (fun r => decide (cutoffOf d ≤ r.timestamp)))
    exact hs.imp (fun h => of_decide_eq_true h)

/-- The windowed query on a concrete store holding one reading before and one
after the 30-day cutoff of 2026-10-12. -/
theorem get_readings_window_filter_sorted_witness :
    (0 : ℕ) < 30 ∧
    ((get_readings windowDB 1 (some 30) windowCutoff).Perm
      (windowDB.readings.filter (fun r =>
        decide (r.patient_id = 1) && decide (windowCutoff 30 ≤ r.timestamp))) ∧
     List.Pairwise (fun a b : Reading => b.timestamp ≤ a.timestamp)
       (get_readings windowDB 1 (some 30) windowCutoff)) :=
  ⟨by norm_num,
   get_readings_window_filter_sorted windowDB 1 30 windowCutoff (by norm_num)⟩

end Glucometer

namespace Glucometer

/-- Unfolding lemma: on a non-empty input `calculate_statistics` returns the
aggregate record spelled out field by field. -/
lemma calculate_statistics_eq (readings : List Reading)
    (h : readings.isEmpty = false) :
    calculate_statistics readings = some
      { count := (readings.map (fun r => r.glucose_value)).length
        average := mean (readings.map (fun r => r.glucose_value))
        median := median (readings.map (fun r => r.glucose_value))
        std_dev := if 1 < (readings.map (fun r => r.glucose_value)).length then
            stdev (readings.map (fun r => r.glucose_value)) else 0
        min := listMin (readings.map (fun r => r.glucose_value))
        max := listMax (readings.map (fun r => r.glucose_value))
        range := listMax (readings.map (fun r => r.glucose_value)) -
          listMin (readings.map (fun r => r.glucose_value))
        time_in_range :=
          (((readings.map (fun r => r.glucose_value)).countP
              (fun v => decide (70 ≤ v ∧ v ≤ 140)) : ℚ) /
            ((readings.map (fun r => r.glucose_value)).length : ℚ)) * 100
        estimated_a1c := pyRound1
          ((mean (readings.map (fun r => r.glucose_value)) + 46.7) / 28.7)
        critical_low := (readings.map (fun r => r.glucose_value)).countP
          (fun v => decide (v < 54))
        warning_low := (readings.map (fun r => r.glucose_value)).countP
          (fun v => decide (54 ≤ v ∧ v < 70))
        normal := (readings.map (fun r => r.glucose_value)).countP
          (fun v => decide (70 ≤ v ∧ v ≤ 140))
        warning_high := (readings.map (fun r => r.glucose_value)).countP
          (fun v => decide (140 < v ∧ v ≤ 180))
        critical_high := (readings.map (fun r => r.glucose_value)).countP
          (fun v => decide (180 < v)) } := by
  simp only [calculate_statistics, h, Bool.false_eq_true, if_false]

/-- Claim C2: on every non-empty list of readings, `calculate_statistics`
returns an aggregate with `count` the number of readings, `average` their
exact mean, `median` the textbook median of any sorted rearrangement,
`std_dev` the sample standard deviation (0 for a single reading), `min`/`max`
an attained lower/upper bound of the values, `range = max - min` and
`time_in_range` the percentage of values inside `[70, 140]`; on
`[100, 120, 140, 160, 180]` it yields count 5, average 140, median 140,
min 100, max 180, range 80 and time-in-range 60. -/
theorem calculate_statistics_spec :
    (∀ readings : List Reading, readings ≠ [] →
      ∃ s, calculate_statistics readings = some s ∧
        (readings.map (fun r => r.glucose_value)).length = s.count ∧
        s.average = (readings.map (fun r => r.glucose_value)).sum / (s.count : ℚ) ∧
        (∀ l : List ℚ, (readings.map (fun r => r.glucose_value)).Perm l →
          l.Sorted (· ≤ ·) →
          s.median = if s.count % 2 = 1 then l.getD (s.count / 2) 0
            else (l.getD (s.count / 2 - 1) 0 + l.getD (s.count / 2) 0) / 2) ∧
        (1 < s.count → 0 ≤ s.std_dev ∧
          s.std_dev ^ 2 =
            (((readings.map (fun r => r.glucose_value)).map
                (fun x => (x - s.average) ^ 2)).sum / ((s.count : ℚ) - 1) : ℚ)) ∧
        (s.count = 1 → s.std_dev = 0) ∧
        s.min ∈ readings.map (fun r => r.glucose_value) ∧
        (∀ v ∈ readings.map (fun r => r.glucose_value), s.min ≤ v) ∧
        s.max ∈ readings.map (fun r => r.glucose_value) ∧
        (∀ v ∈ readings.map (fun r => r.glucose_value), v ≤ s.max) ∧
        s.range = s.max - s.min ∧
        s.time_in_range =
          (((readings.map (fun r => r.glucose_value)).countP
              (fun v => decide (70 ≤ v ∧ v ≤ 140)) : ℚ) / (s.count : ℚ)) * 100) ∧
    (∃ s, calculate_statistics exampleReadings = some s ∧ s.count = 5 ∧
      s.average = 140 ∧ s.median = 140 ∧ s.min = 100 ∧ s.max = 180 ∧
      s.range = 80 ∧ s.time_in_range = 60) := by
  have hsortedSV : ∀ values : List ℚ, List.Sorted (· ≤ ·) (sortedValues values) := by
    intro values
    have htransQ : ∀ a b c : ℚ, decide (a ≤ b) = true → decide (b ≤ c) = true →
        decide (a ≤ c) = true := fun a b c h1 h2 =>
      decide_eq_true (le_trans (of_decide_eq_true h1) (of_decide_eq_true h2))
    have htotalQ : ∀ a b : ℚ, (decide (a ≤ b) || decide (b ≤ a)) = true :=
      fun a b => by rcases le_total a b with h | h <;> simp [h]
    have h := List.sorted_mergeSort htransQ htotalQ values
    exact h.imp (fun h => of_decide_eq_true h)
  constructor
  · intro readings hne
    have hemp : readings.isEmpty = false := by
      simpa [List.isEmpty_iff] using hne
    have hvne : readings.map (fun r => r.glucose_value) ≠ [] := by
      simpa using hne
    refine ⟨_, calculate_statistics_eq readings hemp, ?_, ?_, ?_, ?_, ?_, ?_, ?_, ?_, ?_, ?_, ?_⟩
    · rfl
    · rfl
    · intro l hperm hsort
      have hl : l = sortedValues (readings.map (fun r => r.glucose_value)) :=
        List.eq_of_perm_of_sorted
          (hperm.symm.trans (List.mergeSort_perm _ _).symm) hsort (hsortedSV _)
      rw [hl]
      rfl
    · intro hcount
      constructor
      · show (0:ℝ) ≤ if 1 < (readings.map (fun r => r.glucose_value)).length then
          stdev (readings.map (fun r => r.glucose_value)) else 0
        rw [if_pos hcount]
        exact Real.sqrt_nonneg _
      · have hvar : 0 ≤ sampleVariance (readings.map (fun r => r.glucose_value)) := by
          apply div_nonneg
          · apply List.sum_nonneg
            intro x hx
            obtain ⟨y, -, rfl⟩ := List.mem_map.mp hx
            exact sq_nonneg _
          · have h1 : (1:ℚ) < ((readings.map (fun r => r.glucose_value)).length : ℚ) := by
              exact_mod_cast hcount
            linarith
        show (if 1 < (readings.map (fun r => r.glucose_value)).length then
            stdev (readings.map (fun r => r.glucose_value)) else 0) ^ 2 =
          ((sampleVariance (readings.map (fun r => r.glucose_value)) : ℚ) : ℝ)
        rw [if_pos hcount]
        exact Real.sq_sqrt (by exact_mod_cast hvar)
    · intro hcount
      show (if 1 < (readings.map (fun r => r.glucose_value)).length then
          stdev (readings.map (fun r => r.glucose_value)) else 0) = 0
      rw [if_neg]
      have : (readings.map (fun r => r.glucose_value)).length = 1 := hcount
      omega
    · show listMin (readings.map (fun r => r.glucose_value)) ∈ _
      cases hmin : (readings.map (fun r => r.glucose_value)).min? with
      | none => exact absurd (List.min?_eq_none_iff.mp hmin) hvne
      | some m =>
          have := List.min?_mem (fun a b : ℚ => min_choice a b) hmin
          simpa [listMin, hmin] using this
    · intro v hv
      cases hmin : (readings.map (fun r => r.glucose_value)).min? with
      | none => exact absurd (List.min?_eq_none_iff.mp hmin) hvne
      | some m =>
          have hle := (List.le_min?_iff (fun a b c : ℚ => le_min_iff) hmin).mp
            (le_refl m)
          have : listMin (readings.map (fun r => r.glucose_value)) = m := by
            simp [listMin, hmin]
          rw [this]
          exact hle v hv
    · show listMax (readings.map (fun r => r.glucose_value)) ∈ _
      cases hmax : (readings.map (fun r => r.glucose_value)).max? with
      | none => exact absurd (List.max?_eq_none_iff.mp hmax) hvne
      | some m =>
          have := List.max?_mem (fun a b : ℚ => max_choice a b) hmax
          simpa [listMax, hmax] using this
    · intro v hv
      cases hmax : (readings.map (fun r => r.glucose_value)).max? with
      | none => exact absurd (List.max?_eq_none_iff.mp hmax) hvne
      | some m =>
          have hle := (List.max?_le_iff (fun a b c : ℚ => max_le_iff) hmax).mp
            (le_refl m)
          have : listMax (readings.map (fun r => r.glucose_value)) = m := by
            simp [listMax, hmax]
          rw [this]
          exact hle v hv
    · rfl
    · rfl
  · have hv : exampleReadings.map (fun r => r.glucose_value) = [100,120,140,160,180] := rfl
    have hs : sortedValues [100,120,140,160,180] = [100,120,140,160,180] :=
      List.mergeSort_of_sorted (by decide)
    refine ⟨_, rfl, rfl, ?_, ?_, by decide, by decide, ?_, ?_⟩
    · show mean (exampleReadings.map (fun r => r.glucose_value)) = 140
      rw [hv]
      simp [mean]
      norm_num
    · show median (exampleReadings.map (fun r => r.glucose_value)) = 140
      rw [hv]
      simp [median, hs]
    · show listMax (exampleReadings.map (fun r => r.glucose_value)) -
          listMin (exampleReadings.map (fun r => r.glucose_value)) = 80
      rw [show listMax (exampleReadings.map (fun r => r.glucose_value)) = 180 by decide,
        show listMin (exampleReadings.map (fun r => r.glucose_value)) = 100 by decide]
      norm_num
    · show (((exampleReadings.map (fun r => r.glucose_value)).countP
          (fun v => decide (70 ≤ v ∧ v ≤ 140)) : ℚ) /
            ((exampleReadings.map (fun r => r.glucose_value)).length : ℚ)) * 100 = 60
      rw [hv]
      norm_num [List.countP_cons, List.countP_nil]

end Glucometer

namespace Glucometer

/-- The general statistics theorem applied to the concrete single-reading
input, where the sample standard deviation degenerates to 0. -/
theorem calculate_statistics_spec_witness :
    ∃ s, calculate_statistics tieReading = some s ∧ s.count = 1 ∧
      s.std_dev = 0 := by
  obtain ⟨s, hs, hcount, -, -, -, hsd1, -, -, -, -, -, -⟩ :=
    calculate_statistics_spec.1 tieReading (by simp [tieReading])
  have hc1 : s.count = 1 := hcount.symm.trans (by rfl)
  exact ⟨s, hs, hc1, hsd1 hc1⟩

/-- Unfolding lemma for `roundHalfEvenInt`. -/
lemma roundHalfEvenInt_eq (y : ℚ) :
    roundHalfEvenInt y =
      if y - ⌊y⌋ < 1 / 2 then ⌊y⌋
      else if (1 : ℚ) / 2 < y - ⌊y⌋ then ⌊y⌋ + 1
      else if ⌊y⌋ % 2 = 0 then ⌊y⌋ else ⌊y⌋ + 1 := rfl

/-- Claim C6, amended: `estimated_a1c` is `(average + 46.7) / 28.7` rounded
to one decimal place by Python's `round`, i.e. round-half-to-nearest with ties
to the EVEN tenth (not ties away from the lower value as claimed); the first
conjunct characterises that rounding abstractly (`pyRound1 x` is a multiple of
1/10 within 1/20 of `x`, and at an exact tie the chosen numerator is even),
and mean 140 still yields 6.5. -/
theorem estimated_a1c_half_even :
    (∀ x : ℚ, ∃ n : ℤ, pyRound1 x = (n : ℚ) / 10 ∧
      |x - (n : ℚ) / 10| ≤ 1 / 20 ∧ (|x - (n : ℚ) / 10| = 1 / 20 → n % 2 = 0)) ∧
    (∀ readings : List Reading, readings ≠ [] →
      ∃ s, calculate_statistics readings = some s ∧
        s.estimated_a1c = pyRound1 ((s.average + 46.7) / 28.7)) ∧
    (∃ s, calculate_statistics exampleReadings = some s ∧ s.average = 140 ∧
      s.estimated_a1c = 6.5) := by
  refine ⟨?_, ?_, ?_⟩
  · intro x
    have hf1 : (⌊10 * x⌋ : ℚ) ≤ 10 * x := Int.floor_le _
    have hf2 : 10 * x < ⌊10 * x⌋ + 1 := Int.lt_floor_add_one _
    by_cases h1 : 10 * x - ⌊10 * x⌋ < 1 / 2
    · refine ⟨⌊10 * x⌋, by
        simp only [pyRound1, roundHalfEvenInt_eq]
        rw [if_pos h1], ?_, ?_⟩
      · rw [abs_le]
        constructor <;> linarith
      · intro habs
        rw [abs_of_nonneg (by linarith)] at habs
        linarith
    · by_cases h2 : 1 / 2 < 10 * x - ⌊10 * x⌋
      · refine ⟨⌊10 * x⌋ + 1, ?_, ?_, ?_⟩
        · simp only [pyRound1, roundHalfEvenInt_eq]
          rw [if_neg h1, if_pos h2]
        · rw [abs_le]
          push_cast
          constructor <;> linarith
        · intro habs
          rw [abs_of_nonpos (by push_cast; linarith)] at habs
          push_cast at habs
          linarith
      · have hr : 10 * x - ⌊10 * x⌋ = 1 / 2 :=
          le_antisymm (not_lt.mp h2) (not_lt.mp h1)
        by_cases h3 : ⌊10 * x⌋ % 2 = 0
        · refine ⟨⌊10 * x⌋, by
            simp only [pyRound1, roundHalfEvenInt_eq]
            rw [if_neg h1, if_neg h2, if_pos h3], ?_,
            fun _ => h3⟩
          rw [abs_of_nonneg (by linarith)]
          linarith
        · refine ⟨⌊10 * x⌋ + 1, ?_, ?_, fun _ => by omega⟩
          · simp only [pyRound1, roundHalfEvenInt_eq]
            rw [if_neg h1, if_neg h2, if_neg h3]
          · rw [abs_of_nonpos (by push_cast; linarith)]
            push_cast
            linarith
  · intro readings hne
    have hemp : readings.isEmpty = false := by
      simpa [List.isEmpty_iff] using hne
    exact ⟨_, calculate_statistics_eq readings hemp, rfl⟩
  · refine ⟨_, calculate_statistics_eq exampleReadings rfl, ?_, ?_⟩
    · show mean (exampleReadings.map (fun r => r.glucose_value)) = 140
      rw [show exampleReadings.map (fun r => r.glucose_value) =
        [100, 120, 140, 160, 180] from rfl]
      simp [mean]
      norm_num
    · show pyRound1
        ((mean (exampleReadings.map (fun r => r.glucose_value)) + 46.7) / 28.7) = 6.5
      rw [show mean (exampleReadings.map (fun r => r.glucose_value)) = 140 by
        rw [show exampleReadings.map (fun r => r.glucose_value) =
          [100, 120, 140, 160, 180] from rfl]
        simp [mean]
        norm_num]
      norm_num [pyRound1, roundHalfEvenInt]

end Glucometer

namespace Glucometer

/-- Counterexample to claim C6 as stated: for the single reading 143/8 the
intermediate value `(mean + 46.7) / 28.7` is exactly 2.25, a rounding tie;
the code (Python `round`, ties to even) stores 2.2, whereas the claim's
round-half-to-nearest-ties-away rounding yields 2.3. -/
theorem estimated_a1c_ties_away_counterexample :
    (calculate_statistics tieReading).map Stats.estimated_a1c = some (11 / 5) ∧
    specRoundTiesUp1
      ((mean (tieReading.map (fun r => r.glucose_value)) + 46.7) / 28.7) =
      23 / 10 ∧
    ((11 : ℚ) / 5) ≠ 23 / 10 := by
  have hmean : mean (tieReading.map (fun r => r.glucose_value)) = 143 / 8 := by
    rw [show tieReading.map (fun r => r.glucose_value) = [143 / 8] from rfl]
    simp [mean]
  refine ⟨?_, ?_, by norm_num⟩
  · rw [calculate_statistics_eq tieReading rfl]
    refine congrArg some ?_
    show pyRound1
      ((mean (tieReading.map (fun r => r.glucose_value)) + 46.7) / 28.7) = 11 / 5
    rw [hmean]
    norm_num [pyRound1, roundHalfEvenInt]
  · rw [hmean]
    norm_num [specRoundTiesUp1]

/-- The amended rounding theorem instantiated at the tie 9/4 and at the
concrete tie-producing reading list. -/
theorem estimated_a1c_half_even_witness :
    (∃ n : ℤ, pyRound1 (9 / 4) = (n : ℚ) / 10 ∧
      |(9 : ℚ) / 4 - (n : ℚ) / 10| ≤ 1 / 20 ∧
      (|(9 : ℚ) / 4 - (n : ℚ) / 10| = 1 / 20 → n % 2 = 0)) ∧
    (∃ s, calculate_statistics tieReading = some s ∧
      s.estimated_a1c = pyRound1 ((s.average + 46.7) / 28.7)) :=
  ⟨estimated_a1c_half_even.1 (9 / 4),
   estimated_a1c_half_even.2.1 tieReading (by simp [tieReading])⟩

/-- Each classifier status characterises exactly one value range. -/
lemma analyze_status_iff (v : ℚ) :
    ((v < 54) ↔ (analyze v).status = "CRITICAL LOW") ∧
    ((54 ≤ v ∧ v < 70) ↔ (analyze v).status = "WARNING LOW") ∧
    ((70 ≤ v ∧ v ≤ 140) ↔ (analyze v).status = "NORMAL") ∧
    ((140 < v ∧ v ≤ 180) ↔ (analyze v).status = "WARNING HIGH") ∧
    ((180 < v) ↔ (analyze v).status = "CRITICAL HIGH") := by
  unfold analyze CRITICAL_LOW WARNING_LOW NORMAL_HIGH WARNING_HIGH
  split_ifs with h1 h2 h3 h4
  · exact ⟨iff_of_true h1 rfl,
      iff_of_false (fun h => absurd h1 (not_lt.mpr h.1)) (by simp),
      iff_of_false (fun h => absurd h1 (not_lt.mpr (by linarith [h.1]))) (by simp),
      iff_of_false (fun h => by linarith [h.1]) (by simp),
      iff_of_false (fun h => by linarith) (by simp)⟩
  · exact ⟨iff_of_false h1 (by simp),
      iff_of_true ⟨not_lt.mp h1, h2⟩ rfl,
      iff_of_false (fun h => absurd h2 (not_lt.mpr h.1)) (by simp),
      iff_of_false (fun h => by linarith [h.1]) (by simp),
      iff_of_false (fun h => by linarith) (by simp)⟩
  · exact ⟨iff_of_false h1 (by simp),
      iff_of_false (fun h => h2 h.2) (by simp),
      iff_of_true ⟨not_lt.mp h2, h3⟩ rfl,
      iff_of_false (fun h => absurd h3 (not_le.mpr h.1)) (by simp),
      iff_of_false (fun h => by linarith) (by simp)⟩
  · exact ⟨iff_of_false h1 (by simp),
      iff_of_false (fun h => h2 h.2) (by simp),
      iff_of_false (fun h => h3 h.2) (by simp),
      iff_of_true ⟨not_le.mp h3, h4⟩ rfl,
      iff_of_false (fun h => absurd h4 (not_le.mpr h)) (by simp)⟩
  · exact ⟨iff_of_false h1 (by simp),
      iff_of_false (fun h => h2 h.2) (by simp),
      iff_of_false (fun h => h3 h.2) (by simp),
      iff_of_false (fun h => h4 h.2) (by simp),
      iff_of_true (not_le.mp h4) rfl⟩

/-- The five bucket ranges of `calculate_statistics` partition the line, so
their counts sum to the list length. -/
lemma countP_five_partition (values : List ℚ) :
    values.countP (fun v => decide (v < 54)) +
      values.countP (fun v => decide (54 ≤ v ∧ v < 70)) +
      values.countP (fun v => decide (70 ≤ v ∧ v ≤ 140)) +
      values.countP (fun v => decide (140 < v ∧ v ≤ 180)) +
      values.countP (fun v => decide (180 < v)) = values.length := by
  induction values with
  | nil => simp
  | cons x xs ih =>
    simp only [List.countP_cons, List.length_cons]
    rcases lt_or_le x 54 with h54 | h54
    · have e1 : decide (x < 54) = true := decide_eq_true h54
      have e2 : decide (54 ≤ x ∧ x < 70) = false :=
        decide_eq_false (fun h => absurd h.1 (not_le.mpr h54))
      have e3 : decide (70 ≤ x ∧ x ≤ 140) = false :=
        decide_eq_false (fun h => by linarith [h.1])
      have e4 : decide (140 < x ∧ x ≤ 180) = false :=
        decide_eq_false (fun h => by linarith [h.1])
      have e5 : decide (180 < x) = false := decide_eq_false (by intro h; linarith)
      rw [e1, e2, e3, e4, e5]
      simp only [eq_self_iff_true, Bool.false_eq_true, if_true, if_false]
      omega
    · rcases lt_or_le x 70 with h70 | h70
      · have e1 : decide (x < 54) = false := decide_eq_false (not_lt.mpr h54)
        have e2 : decide (54 ≤ x ∧ x < 70) = true := decide_eq_true ⟨h54, h70⟩
        have e3 : decide (70 ≤ x ∧ x ≤ 140) = false :=
          decide_eq_false (fun h => absurd h.1 (not_le.mpr h70))
        have e4 : decide (140 < x ∧ x ≤ 180) = false :=
          decide_eq_false (fun h => by linarith [h.1])
        have e5 : decide (180 < x) = false := decide_eq_false (by intro h; linarith)
        rw [e1, e2, e3, e4, e5]
        simp only [eq_self_iff_true, Bool.false_eq_true, if_true, if_false]
        omega
      · rcases le_or_lt x 140 with h140 | h140
        · have e1 : decide (x < 54) = false :=
            decide_eq_false (fun h => by linarith)
          have e2 : decide (54 ≤ x ∧ x < 70) = false :=
            decide_eq_false (fun h => absurd h.2 (not_lt.mpr h70))
          have e3 : decide (70 ≤ x ∧ x ≤ 140) = true := decide_eq_true ⟨h70, h140⟩
          have e4 : decide (140 < x ∧ x ≤ 180) = false :=
            decide_eq_false (fun h => absurd h140 (not_le.mpr h.1))
          have e5 : decide (180 < x) = false :=
            decide_eq_false (by intro h; linarith)
          rw [e1, e2, e3, e4, e5]
          simp only [eq_self_iff_true, Bool.false_eq_true, if_true, if_false]
          omega
        · rcases le_or_lt x 180 with h180 | h180
          · have e1 : decide (x < 54) = false :=
              decide_eq_false (fun h => by linarith)
            have e2 : decide (54 ≤ x ∧ x < 70) = false :=
              decide_eq_false (fun h => by linarith [h.2])
            have e3 : decide (70 ≤ x ∧ x ≤ 140) = false :=
              decide_eq_false (fun h => absurd h.2 (not_le.mpr h140))
            have e4 : decide (140 < x ∧ x ≤ 180) = true :=
              decide_eq_true ⟨h140, h180⟩
            have e5 : decide (180 < x) = false :=
              decide_eq_false (fun h => absurd h180 (not_le.mpr h))
            rw [e1, e2, e3, e4, e5]
            simp only [eq_self_iff_true, Bool.false_eq_true, if_true, if_false]
            omega
          · have e1 : decide (x < 54) = false :=
              decide_eq_false (fun h => by linarith)
            have e2 : decide (54 ≤ x ∧ x < 70) = false :=
              decide_eq_false (fun h => by linarith [h.2])
            have e3 : decide (70 ≤ x ∧ x ≤ 140) = false :=
              decide_eq_false (fun h => by linarith [h.2])
            have e4 : decide (140 < x ∧ x ≤ 180) = false :=
              decide_eq_false (fun h => absurd h.2 (not_le.mpr h180))
            have e5 : decide (180 < x) = true := decide_eq_true h180
            rw [e1, e2, e3, e4, e5]
            simp only [eq_self_iff_true, Bool.false_eq_true, if_true, if_false]
            omega

/-- Claim C8: each bucket of `calculate_statistics` counts exactly the values
that `analyze` classifies with the matching status (`critical_low` ↔ CRITICAL
LOW, ..., `normal` closed on both ends ↔ NORMAL), and consequently the five
bucket counts sum to `count`. -/
theorem bucket_counts_match_classifier :
    (∀ v : ℚ,
      ((v < 54) ↔ (analyze v).status = "CRITICAL LOW") ∧
      ((54 ≤ v ∧ v < 70) ↔ (analyze v).status = "WARNING LOW") ∧
      ((70 ≤ v ∧ v ≤ 140) ↔ (analyze v).status = "NORMAL") ∧
      ((140 < v ∧ v ≤ 180) ↔ (analyze v).status = "WARNING HIGH") ∧
      ((180 < v) ↔ (analyze v).status = "CRITICAL HIGH")) ∧
    (∀ readings : List Reading, readings ≠ [] →
      ∃ s, calculate_statistics readings = some s ∧
        s.critical_low = (readings.map (fun r => r.glucose_value)).countP
          (fun v => decide ((analyze v).status = "CRITICAL LOW")) ∧
        s.warning_low = (readings.map (fun r => r.glucose_value)).countP
          (fun v => decide ((analyze v).status = "WARNING LOW")) ∧
        s.normal = (readings.map (fun r => r.glucose_value)).countP
          (fun v => decide ((analyze v).status = "NORMAL")) ∧
        s.warning_high = (readings.map (fun r => r.glucose_value)).countP
          (fun v => decide ((analyze v).status = "WARNING HIGH")) ∧
        s.critical_high = (readings.map (fun r => r.glucose_value)).countP
          (fun v => decide ((analyze v).status = "CRITICAL HIGH")) ∧
        s.critical_low + s.warning_low + s.normal + s.warning_high +
          s.critical_high = s.count) := by
  refine ⟨analyze_status_iff, ?_⟩
  intro readings hne
  have hemp : readings.isEmpty = false := by
    simpa [List.isEmpty_iff] using hne
  refine ⟨_, calculate_statistics_eq readings hemp, ?_, ?_, ?_, ?_, ?_, ?_⟩
  · exact List.countP_congr (fun x _ => by
      simpa using (analyze_status_iff x).1)
  · exact List.countP_congr (fun x _ => by
      simpa using (analyze_status_iff x).2.1)
  · exact List.countP_congr (fun x _ => by
      simpa using (analyze_status_iff x).2.2.1)
  · exact List.countP_congr (fun x _ => by
      simpa using (analyze_status_iff x).2.2.2.1)
  · exact List.countP_congr (fun x _ => by
      simpa using (analyze_status_iff x).2.2.2.2)
  · exact countP_five_partition (readings.map (fun r => r.glucose_value))

/-- The bucket/classifier correspondence at value 100 and the bucket-sum
identity on the worked five-reading example. -/
theorem bucket_counts_match_classifier_witness :
    ((70 ≤ (100 : ℚ) ∧ (100 : ℚ) ≤ 140) ↔ (analyze 100).status = "NORMAL") ∧
    (∃ s, calculate_statistics exampleReadings = some s ∧
      s.critical_low + s.warning_low + s.normal + s.warning_high +
        s.critical_high = s.count) := by
  refine ⟨(bucket_counts_match_classifier.1 100).2.2.1, ?_⟩
  obtain ⟨s, hs, -, -, -, -, -, hsum⟩ :=
    bucket_counts_match_classifier.2 exampleReadings (by simp [exampleReadings])
  exact ⟨s, hs, hsum⟩

end Glucometer
